import Mathlib

/-!
Verification development for the TrueClaim medical-billing audit engine.

The TypeScript pipeline (four analysis engines plus a risk aggregator) is
shallowly embedded here: currency amounts, coordinates and scores are
rationals, timestamps are integers (milliseconds), JavaScript floating-point
special values (NaN and the infinities) are modelled by the `JSVal` type where
the code can actually produce them (the divisions in the aggregator), and the
great-circle distance is a real number.  Narrative / explanation strings and
the analysis timestamp are elided (they are free-text output only); where a
finding record in the source carries an explanation string chosen by a
conditional, the embedding keeps the conditional as a Boolean or variant tag.
-/

namespace TrueClaim

/-! String helpers (JavaScript string primitives used by the engines) -/

/-- Boolean test that the first list starts the second. -/
def charsStarts : List Char → List Char → Bool
  | [], _ => true
  | _ :: _, [] => false
  | a :: as, b :: bs => a == b && charsStarts as bs

/-- Boolean substring test on character lists. -/
def charsWithin (n : List Char) : List Char → Bool
  | [] => charsStarts n []
  | b :: bs => charsStarts n (b :: bs) || charsWithin n bs

/-- JavaScript `hay.includes(needle)`. -/
def substrOf (needle hay : String) : Bool :=
  charsWithin needle.data hay.data

/-- JavaScript `s.toLowerCase()` (ASCII data in this code base). -/
def jsLower (s : String) : String :=
  ⟨s.data.map Char.toLower⟩

/-- Truthiness of a JavaScript string: nonempty. -/
def strTruthy (s : String) : Bool :=
  !(s == "")

/-- The source guard `s && s.trim().length > 0`. -/
def nonBlank (s : String) : Bool :=
  strTruthy s && strTruthy s.trim

/-! JavaScript number values

NaN and signed infinities with IEEE-754 / JavaScript arithmetic, over exact
rationals.  (Rounding error of binary floating point is out of scope; the
special values are what the claims are about.) -/

/-- A JavaScript number: NaN, +Infinity, -Infinity, or a finite value. -/
inductive JSVal : Type where
  | nan : JSVal
  | inf : JSVal
  | ninf : JSVal
  | num : ℚ → JSVal
deriving DecidableEq

/-- JavaScript addition. -/
def jadd : JSVal → JSVal → JSVal
  | .nan, _ => .nan
  | _, .nan => .nan
  | .inf, .ninf => .nan
  | .ninf, .inf => .nan
  | .inf, _ => .inf
  | _, .inf => .inf
  | .ninf, _ => .ninf
  | _, .ninf => .ninf
  | .num a, .num b => .num (a + b)

/-- JavaScript negation. -/
def jneg : JSVal → JSVal
  | .nan => .nan
  | .inf => .ninf
  | .ninf => .inf
  | .num a => .num (-a)

/-- JavaScript subtraction. -/
def jsub (a b : JSVal) : JSVal :=
  jadd a (jneg b)

/-- JavaScript multiplication. -/
def jmul : JSVal → JSVal → JSVal
  | .nan, _ => .nan
  | _, .nan => .nan
  | .inf, .inf => .inf
  | .inf, .ninf => .ninf
  | .ninf, .inf => .ninf
  | .ninf, .ninf => .inf
  | .inf, .num b => if b = 0 then .nan else if 0 < b then .inf else .ninf
  | .num a, .inf => if a = 0 then .nan else if 0 < a then .inf else .ninf
  | .ninf, .num b => if b = 0 then .nan else if 0 < b then .ninf else .inf
  | .num a, .ninf => if a = 0 then .nan else if 0 < a then .ninf else .inf
  | .num a, .num b => .num (a * b)

/-- JavaScript division (sign of zero ignored: a zero denominator counts as
positive zero, which is the case the code can reach with nonnegative data). -/
def jdiv : JSVal → JSVal → JSVal
  | .nan, _ => .nan
  | _, .nan => .nan
  | .inf, .inf => .nan
  | .inf, .ninf => .nan
  | .ninf, .inf => .nan
  | .ninf, .ninf => .nan
  | .inf, .num b => if 0 ≤ b then .inf else .ninf
  | .ninf, .num b => if 0 ≤ b then .ninf else .inf
  | .num _, .inf => .num 0
  | .num _, .ninf => .num 0
  | .num a, .num b =>
      if b = 0 then (if a = 0 then .nan else if 0 < a then .inf else .ninf)
      else .num (a / b)

/-- JavaScript `Math.min` (NaN-propagating). -/
def jmin : JSVal → JSVal → JSVal
  | .nan, _ => .nan
  | _, .nan => .nan
  | .ninf, _ => .ninf
  | _, .ninf => .ninf
  | .inf, b => b
  | a, .inf => a
  | .num a, .num b => .num (min a b)

/-- JavaScript `Math.max` (NaN-propagating). -/
def jmax : JSVal → JSVal → JSVal
  | .nan, _ => .nan
  | _, .nan => .nan
  | .inf, _ => .inf
  | _, .inf => .inf
  | .ninf, b => b
  | a, .ninf => a
  | .num a, .num b => .num (max a b)

/-- JavaScript `Math.abs`. -/
def jabs : JSVal → JSVal
  | .nan => .nan
  | .inf => .inf
  | .ninf => .inf
  | .num a => .num |a|

/-- JavaScript `Math.round`: round half toward positive infinity. -/
def jround : JSVal → JSVal
  | .nan => .nan
  | .inf => .inf
  | .ninf => .ninf
  | .num q => .num ((⌊q + 1/2⌋ : ℤ) : ℚ)

/-- JavaScript `a >= b` (false whenever either side is NaN). -/
def jge : JSVal → JSVal → Bool
  | .nan, _ => false
  | _, .nan => false
  | .inf, _ => true
  | _, .inf => false
  | _, .ninf => true
  | .ninf, _ => false
  | .num a, .num b => b ≤ a

/-- A JavaScript value that is an ordinary finite number. -/
def JSVal.isFinite : JSVal → Bool
  | .num _ => true
  | _ => false

/-- The finite value carried by a `JSVal` (0 for the special values). -/
def JSVal.toQ : JSVal → ℚ
  | .num q => q
  | _ => 0

/-! Data model (`lib/types`, reconstructed from use sites) -/

/-- One claim line item, as coerced by the API route. -/
structure ClaimItem : Type where
  claim_id : String
  patient_name : String
  date : String
  time : String
  department : String
  cpt_code : String
  cpt_description : String
  billed_amount_inr : ℚ
  recorded_clinical_notes : String
  location_lat : Option ℚ
  location_lng : Option ℚ
deriving DecidableEq

/-- Reference metadata for one procedure code. -/
structure CPTInfo : Type where
  description : String
  severity : ℕ
  avg_cost_inr : ℚ
  category : String
deriving DecidableEq

/-- One NCCI bundling rule. -/
structure BundlingRule : Type where
  primary_code : String
  bundled_codes : List String
  correct_single_code : String
  correct_description : String
deriving DecidableEq

/-- The static reference database (code lookup as an association list in
insertion order, bundling rules, severity lexicon level → keywords). -/
structure CPTDatabase : Type where
  codes : List (String × CPTInfo)
  ncci_bundles : List BundlingRule
  severity_keywords : List (ℕ × List String)
deriving DecidableEq

/-- Lookup `cptDb.codes[code]`. -/
def dbLookup (db : CPTDatabase) (code : String) : Option CPTInfo :=
  db.codes.lookup code

/-- The keyword list of one severity level of the lexicon. -/
def lexiconAt (sk : List (ℕ × List String)) (level : ℕ) : List String :=
  (sk.lookup level).getD []

/-- Shared four-step risk ladder. -/
inductive RiskLevel : Type where
  | LOW | MEDIUM | HIGH | CRITICAL
deriving DecidableEq

/-- The recommendation of the aggregator. -/
inductive Recommendation : Type where
  | APPROVE | REVIEW | ESCALATE | REJECT
deriving DecidableEq

/-- Risk ladder shared by the cross-modal and ghost engines
(≥3 CRITICAL, ≥2 HIGH, ≥1 MEDIUM, else LOW). -/
def riskLadder (flagged : ℕ) : RiskLevel :=
  if 3 ≤ flagged then .CRITICAL
  else if 2 ≤ flagged then .HIGH
  else if 1 ≤ flagged then .MEDIUM
  else .LOW

/-! Cross-Modal Auditor (`engine/cross-modal-auditor.ts`) -/

/-- Scan the notes against the severity lexicon: highest matched level (with
the explicit-denial override to level 0 and the low-keyword cap to level 2)
together with every matched keyword. -/
def extractNoteSeverity (notes : String) (sk : List (ℕ × List String)) :
    ℕ × List String :=
  let lowerNotes := jsLower notes
  let found := ([5, 4, 3, 2, 1] : List ℕ).flatMap
    (fun l => (lexiconAt sk l).filter (fun kw => substrOf (jsLower kw) lowerNotes))
  let maxLevel := (([5, 4, 3, 2, 1] : List ℕ).filter
    (fun l => (lexiconAt sk l).any (fun kw => substrOf (jsLower kw) lowerNotes))).foldl max 1
  if substrOf "no record found" lowerNotes || substrOf "no clinical notes available" lowerNotes then
    (0, ["NO RECORD FOUND"])
  else
    let lowKws := lexiconAt sk 1 ++ lexiconAt sk 2
    let highKws := lexiconAt sk 4 ++ lexiconAt sk 5
    let lowCount := (found.filter (fun k => lowKws.any (fun kw => jsLower k == jsLower kw))).length
    let highCount := (found.filter (fun k => highKws.any (fun kw => jsLower k == jsLower kw))).length
    if lowCount > highCount ∧ 2 < maxLevel then (2, found) else (maxLevel, found)

/-- Separator set of the description-term regex split. -/
def splitSeps (c : Char) : Bool :=
  c.isWhitespace || c == ',' || c == '-' || c == '—' || c == '(' || c == ')' || c == '/'

/-- Generic stop-terms that never count toward service evidence. -/
def genericTerms : List String :=
  ["the", "and", "with", "level", "visit", "established", "patient", "low", "high"]

/-- Per-code expected-phrase table of `checkServiceEvidence`. -/
def evidencePatternsTable : List (String × List String) :=
  [("99285", ["emergency", "life threatening", "critical", "unstable", "code blue", "resuscitation"]),
   ("99284", ["emergency", "high severity", "urgent", "acute"]),
   ("99283", ["emergency", "moderate"]),
   ("73600", ["x-ray", "xray", "x ray", "ankle", "radiograph"]),
   ("70553", ["mri", "brain", "magnetic resonance", "contrast", "neurological"]),
   ("99070", ["supplies", "brace", "material", "medication", "med", "ankle brace", "tab.", "tablet"]),
   ("99213", ["office visit", "follow-up", "follow up", "outpatient", "review"]),
   ("99214", ["office visit", "moderate complexity"]),
   ("49320", ["laparoscop", "exploratory", "scope"]),
   ("44950", ["appendectomy", "appendix"]),
   ("44970", ["laparoscopic appendectomy"]),
   ("12001", ["suture", "wound", "closure"])]

/-- Does the note text support that this billed service was performed?
Two or more non-generic description terms, or one per-code evidence pattern. -/
def checkServiceEvidence (cptCode cptDescription notes : String) : Bool :=
  let lowerNotes := jsLower notes
  let lowerDesc := jsLower cptDescription
  let descTerms := (lowerDesc.split splitSeps).filter (fun t => 3 ≤ t.length)
  let matchCount :=
    (descTerms.filter (fun t => !(genericTerms.contains t) && substrOf t lowerNotes)).length
  let patterns := (evidencePatternsTable.lookup cptCode).getD []
  let patternMatches := (patterns.filter (fun p => substrOf p lowerNotes)).length
  decide (2 ≤ matchCount) || decide (1 ≤ patternMatches)

/-- One severity-mismatch finding.  The free-text explanation is elided; the
department is `none` on the no-notes inference path (the source omits the
field there). -/
structure SeverityMismatch : Type where
  claim_id : String
  cpt_code : String
  cpt_description : String
  billed_severity : ℕ
  note_severity : ℕ
  severity_gap : ℤ
  billed_amount : ℚ
  evidence_text : String
  highlighted_keywords : List String
  department : Option String
deriving DecidableEq

/-- The billed-minus-note severity gap of path A. -/
def auditGap (sk : List (ℕ × List String)) (info : CPTInfo) (claim : ClaimItem) : ℤ :=
  (info.severity : ℤ) - ((extractNoteSeverity claim.recorded_clinical_notes sk).1 : ℤ)

/-- The `shouldFlag` condition of path A of the cross-modal audit. -/
def shouldFlagA (sk : List (ℕ × List String)) (info : CPTInfo) (claim : ClaimItem) : Bool :=
  (!checkServiceEvidence claim.cpt_code claim.cpt_description claim.recorded_clinical_notes &&
    decide (2 ≤ info.severity)) ||
  decide (3 ≤ auditGap sk info claim) ||
  (decide (2 ≤ auditGap sk info claim) &&
    !checkServiceEvidence claim.cpt_code claim.cpt_description claim.recorded_clinical_notes)

/-- Path A of the cross-modal audit: the claim has clinical notes. -/
def auditClaimA (sk : List (ℕ × List String)) (info : CPTInfo) (claim : ClaimItem) :
    Option SeverityMismatch :=
  let noteAnalysis := extractNoteSeverity claim.recorded_clinical_notes sk
  let hasEvidence :=
    checkServiceEvidence claim.cpt_code claim.cpt_description claim.recorded_clinical_notes
  let billedSeverity := info.severity
  if shouldFlagA sk info claim then
    let effectiveNoteSeverity := if hasEvidence then noteAnalysis.1 else min noteAnalysis.1 1
    some { claim_id := claim.claim_id
           cpt_code := claim.cpt_code
           cpt_description := claim.cpt_description
           billed_severity := billedSeverity
           note_severity := effectiveNoteSeverity
           severity_gap := (billedSeverity : ℤ) - (effectiveNoteSeverity : ℤ)
           billed_amount := claim.billed_amount_inr
           evidence_text := claim.recorded_clinical_notes
           highlighted_keywords :=
             if hasEvidence then noteAnalysis.2
             else ["No specific evidence found for this service"]
           department := some claim.department }
  else none

/-- Body-area keyword table of the cross-modal auditor. -/
def bodyAreaKeywordsCM : List (String × List String) :=
  [("ankle", ["ankle", "73600", "73610", "73620"]),
   ("brain", ["brain", "cerebral", "cranial", "70553", "70551", "70552"]),
   ("abdomen", ["abdomen", "abdominal", "appendix", "laparoscop", "49320", "44950", "44970"]),
   ("chest", ["chest", "thorax", "pulmonary", "cardiac", "heart"]),
   ("spine", ["spine", "spinal", "lumbar", "cervical", "thoracic"]),
   ("knee", ["knee", "patellar", "73721", "73560"]),
   ("shoulder", ["shoulder", "rotator", "acromial"]),
   ("hip", ["hip", "femoral", "acetabular"]),
   ("wrist", ["wrist", "carpal", "73100"])]

/-- The body areas (with the severity credited to them) that one claim bumps
in `inferClinicalPicture`: every area whose keyword list matches the
description or the code, skipping E&M claims entirely. -/
def claimAreaHits (db : CPTDatabase) (c : ClaimItem) : List (String × ℕ) :=
  let desc := jsLower c.cpt_description
  let info := dbLookup db c.cpt_code
  if (match info with | some i => i.category == "E&M" | none => false) then []
  else
    bodyAreaKeywordsCM.filterMap (fun p =>
      if p.2.any (fun kw => substrOf kw desc || c.cpt_code == kw) then
        some (p.1, match info with | some i => if i.severity = 0 then 1 else i.severity | none => 1)
      else none)

/-- Record-style bump of an (area, count, max severity) association list;
new keys append (JavaScript object insertion order). -/
def bumpArea : List (String × ℕ × ℕ) → String → ℕ → List (String × ℕ × ℕ)
  | [], area, sev => [(area, 1, sev)]
  | (a, c, s) :: rest, area, sev =>
      if a == area then (a, c + 1, max s sev) :: rest
      else (a, c, s) :: bumpArea rest area sev

/-- The (area, count, max severity) table of `inferClinicalPicture`. -/
def areaStats (db : CPTDatabase) (claims : List ClaimItem) : List (String × ℕ × ℕ) :=
  claims.foldl
    (fun acc c => (claimAreaHits db c).foldl (fun acc2 h => bumpArea acc2 h.1 h.2) acc) []

/-- The head of the count-descending stable sort: the first entry of maximal
count. -/
def pickDominant (l : List (String × ℕ × ℕ)) : Option (String × ℕ × ℕ) :=
  l.foldl
    (fun best e =>
      match best with
      | none => some e
      | some b => if b.2.1 < e.2.1 then some e else best) none

/-- The severity ceiling `inferClinicalPicture` supports: the maximal severity
of the dominant body area, else the fallback scan over non-E&M non-Supplies
claims. -/
def maxSupportedSeverity (db : CPTDatabase) (claims : List ClaimItem) : ℕ :=
  match pickDominant (areaStats db claims) with
  | some d => d.2.2
  | none =>
      claims.foldl
        (fun acc c =>
          match dbLookup db c.cpt_code with
          | some i => if i.category ≠ "E&M" ∧ i.category ≠ "Supplies" then max acc i.severity else acc
          | none => acc) 1

/-- Path B of the cross-modal audit: no notes, validate E&M visit severity
against the inferred clinical picture. -/
def auditClaimB (db : CPTDatabase) (claims : List ClaimItem) (info : CPTInfo)
    (claim : ClaimItem) : Option SeverityMismatch :=
  if info.category ≠ "E&M" then none
  else if info.severity ≤ 2 then none
  else
    let inferredSeverity := min (maxSupportedSeverity db claims + 1) 5
    let gap : ℤ := (info.severity : ℤ) - (inferredSeverity : ℤ)
    if 2 ≤ gap then
      some { claim_id := claim.claim_id
             cpt_code := claim.cpt_code
             cpt_description := claim.cpt_description
             billed_severity := info.severity
             note_severity := inferredSeverity
             severity_gap := gap
             billed_amount := claim.billed_amount_inr
             evidence_text := ""
             highlighted_keywords := []
             department := none }
    else none

/-- Result of the cross-modal auditor. -/
structure CrossModalResult : Type where
  mismatches : List SeverityMismatch
  total_claims : ℕ
  flagged_count : ℕ
  risk_level : RiskLevel
deriving DecidableEq

/-- Run the cross-modal auditor: unknown codes are silently skipped; claims
with notes take path A, the rest path B. -/
def runCrossModalAudit (db : CPTDatabase) (claims : List ClaimItem) : CrossModalResult :=
  let mismatches := claims.flatMap (fun claim =>
    match dbLookup db claim.cpt_code with
    | none => []
    | some info =>
        if nonBlank claim.recorded_clinical_notes then (auditClaimA db.severity_keywords info claim).toList
        else (auditClaimB db claims info claim).toList)
  { mismatches := mismatches
    total_claims := claims.length
    flagged_count := mismatches.length
    risk_level := riskLadder mismatches.length }

/-! Ghost & Unbundling Hunter (`engine/ghost-unbundle-hunter.ts`) -/

/-- Keyword synonym groups for semantic matching. -/
def semanticGroups : List (String × List String) :=
  [("mri", ["mri", "magnetic resonance", "tesla", "t1-weighted", "t2-weighted", "flair", "stir",
            "mri brain", "axial", "sagittal", "coronal"]),
   ("xray", ["x-ray", "xray", "radiograph", "film", "views", "ap ", "lateral"]),
   ("ct", ["ct scan", "computed tomography", "cat scan"]),
   ("surgery", ["surgery", "surgical", "incision", "excision", "resection", "operation", "operat"]),
   ("appendectomy", ["appendix", "appendectomy", "appendiceal", "cecum"]),
   ("laparoscopy", ["laparoscop", "trocar", "abdomen inflated", "scope", "minimally invasive"]),
   ("suture", ["suture", "stitch", "closure", "wound closure", "closed with"]),
   ("physio", ["physiotherapy", "physical therapy", "exercise", "rehabilitation", "rehab",
               "therapeutic exercise"]),
   ("pharmacy", ["medication", "drug", "prescribed", "tablet", "capsule", "brace", "supplies",
                 "tab", "rice", "ice", "compression", "ibuprofen", "mg ", "bd ", " x "]),
   ("emergency", ["emergency", "ed visit", "er visit", "trauma", "acute presentation", "triage",
                  "resuscitation", "emergency department"]),
   ("brain", ["brain", "cerebral", "cranial", "neurological", "head", "neuro", "mental status",
              "consciousness"])]

/-- Body-area table of the ghost engine: area, codes, description keywords. -/
def ghostBodyAreaMap : List (String × List String × List String) :=
  [("ankle/foot", (["73600", "73610", "73620", "73630"], ["ankle", "foot", "tarsal", "metatarsal"])),
   ("knee", (["73560", "73721", "27447"], ["knee", "patellar", "tibial"])),
   ("hip", (["73501", "73721"], ["hip", "femoral", "acetabulum"])),
   ("brain/head", (["70553", "70551", "70552", "70540"],
                   ["brain", "head", "cranial", "cerebral", "neurological"])),
   ("abdomen", (["49320", "44950", "44970", "74177"],
                ["abdomen", "abdominal", "appendix", "laparoscop", "bowel"])),
   ("chest", (["71046", "71275"], ["chest", "thorax", "pulmonary", "cardiac", "lung"])),
   ("spine", (["72148", "72141"], ["spine", "spinal", "lumbar", "cervical", "vertebral"])),
   ("wrist/hand", (["73100", "73110", "73120"], ["wrist", "hand", "carpal", "metacarpal"])),
   ("shoulder", (["73221", "23472"], ["shoulder", "rotator", "acromial", "clavicle"]))]

/-- Categories that are body-area-agnostic for the ghost engine. -/
def genericCategories : List String :=
  ["E&M", "Supplies", "Physical Therapy"]

/-- Category of a claim for the ghost engine, `cptInfo?.category` with falsy default Unknown. -/
def categoryOf (db : CPTDatabase) (c : ClaimItem) : String :=
  match dbLookup db c.cpt_code with
  | some i => if i.category == "" then "Unknown" else i.category
  | none => "Unknown"

/-- First body area whose codes contain the CPT code or whose keywords occur
in the description. -/
def getBodyArea (cptCode description : String) : Option String :=
  let lowerDesc := jsLower description
  ghostBodyAreaMap.findSome? (fun e =>
    if e.2.1.contains cptCode || e.2.2.any (fun kw => substrOf kw lowerDesc) then some e.1
    else none)

/-- Semantic groups whose keyword lists intersect the CPT description. -/
def getRelevantGroups (cptDescription : String) : List String :=
  let lower := jsLower cptDescription
  semanticGroups.filterMap (fun g =>
    if g.2.any (fun kw => substrOf kw lower) then some g.1 else none)

/-- The explicit-denial test of `calculateSimilarity` on lowercased notes. -/
def denialPhrase (lowerNotes : String) : Bool :=
  substrOf "no record found" lowerNotes ||
  (substrOf "not required" lowerNotes && decide (lowerNotes.length < 100)) ||
  substrOf "no clinical notes available" lowerNotes

/-- Semantic similarity ratio between a procedure description and the notes.
No relevant group gives the 0.5 default; an explicit denial phrase forces 0. -/
def calculateSimilarity (cptDescription notes : String) : ℚ :=
  let relevantGroups := getRelevantGroups cptDescription
  if relevantGroups.isEmpty then 0.5
  else
    let lowerNotes := jsLower notes
    let groupKws := relevantGroups.map (fun g => (semanticGroups.lookup g).getD [])
    let totalKeywords := (groupKws.map List.length).sum
    let matchCount :=
      (groupKws.map (fun kws => (kws.filter (fun kw => substrOf kw lowerNotes)).length)).sum
    if denialPhrase lowerNotes then 0
    else if 0 < totalKeywords then (matchCount : ℚ) / (totalKeywords : ℚ) else 0.5

/-- Which explanation template a ghost finding carries. -/
inductive GhostWording : Type where
  | phantomBilling
  | insufficientEvidence
  | unrelatedArea
deriving DecidableEq

/-- One ghost-service finding; the free-text explanation is kept as the
variant the source conditional selects. -/
structure GhostService : Type where
  claim_id : String
  cpt_code : String
  cpt_description : String
  billed_amount : ℚ
  similarity_score : ℚ
  wording : GhostWording
deriving DecidableEq

/-- Path A of ghost detection: notes exist, semantic matching with the 0.15
threshold; the explanation distinguishes ratio 0 from a weak ratio. -/
def ghostPathA (claim : ClaimItem) : Option GhostService :=
  let score := calculateSimilarity claim.cpt_description claim.recorded_clinical_notes
  if score < 0.15 then
    some { claim_id := claim.claim_id
           cpt_code := claim.cpt_code
           cpt_description := claim.cpt_description
           billed_amount := claim.billed_amount_inr
           similarity_score := score
           wording := if score = 0 then .phantomBilling else .insufficientEvidence }
  else none

/-- Record-style bump of an (area, count) association list. -/
def bumpCount : List (String × ℕ) → String → List (String × ℕ)
  | [], area => [(area, 1)]
  | (a, c) :: rest, area =>
      if a == area then (a, c + 1) :: rest else (a, c) :: bumpCount rest area

/-- First key of maximal count (head of the count-descending stable sort). -/
def pickFirstMaxCount (l : List (String × ℕ)) : Option String :=
  (l.foldl
    (fun best e =>
      match best with
      | none => some e
      | some b => if b.2 < e.2 then some e else best) none).map Prod.fst

/-- Ghost detection over a batch: path A per claim with notes, body-area
outlier analysis for claims without notes. -/
def detectGhostServices (db : CPTDatabase) (claims : List ClaimItem) : List GhostService :=
  let bodyAreas := claims.map (fun c =>
    (c.cpt_code, getBodyArea c.cpt_code c.cpt_description, categoryOf db c))
  let areaCounts := bodyAreas.foldl
    (fun acc ba =>
      match ba.2.1 with
      | some area => if !(genericCategories.contains ba.2.2) then bumpCount acc area else acc
      | none => acc) []
  let dominantArea := pickFirstMaxCount areaCounts
  claims.enum.flatMap (fun ic =>
    let claim := ic.2
    if nonBlank claim.recorded_clinical_notes then (ghostPathA claim).toList
    else
      let category := categoryOf db claim
      if genericCategories.contains category then []
      else
        match getBodyArea claim.cpt_code claim.cpt_description with
        | none => []
        | some thisArea =>
            match dominantArea with
            | none => []
            | some dom =>
                if thisArea ≠ dom then
                  let hasRelated := bodyAreas.enum.any (fun jba =>
                    jba.1 ≠ ic.1 && jba.2.2.1 == some thisArea &&
                    !(genericCategories.contains jba.2.2.2))
                  if hasRelated then []
                  else
                    [{ claim_id := claim.claim_id
                       cpt_code := claim.cpt_code
                       cpt_description := claim.cpt_description
                       billed_amount := claim.billed_amount_inr
                       similarity_score := 0
                       wording := .unrelatedArea }]
                else [])

/-- One unbundling alert; the free-text explanation is elided. -/
structure UnbundlingAlert : Type where
  involved_claims : List String
  involved_codes : List String
  involved_descriptions : List String
  total_billed : ℚ
  correct_code : String
  correct_description : String
  correct_cost : ℚ
  potential_savings : ℚ
deriving DecidableEq

/-- Unbundling detection: one alert per rule whose primary code and at least
one bundled code are both billed.  The replacement cost falls back to 60% of
the total billed when the replacement code is unknown or its average cost is
zero (JavaScript falsiness of the looked-up cost). -/
def detectUnbundling (db : CPTDatabase) (claims : List ClaimItem) : List UnbundlingAlert :=
  let billedCodes := claims.map (fun c => c.cpt_code)
  db.ncci_bundles.filterMap (fun bundle =>
    let hasPrimary := billedCodes.contains bundle.primary_code
    let presentBundled := bundle.bundled_codes.filter (fun c => billedCodes.contains c)
    if hasPrimary && !presentBundled.isEmpty then
      let involvedCodes := bundle.primary_code :: presentBundled
      let involvedClaims := claims.filter (fun c => involvedCodes.contains c.cpt_code)
      let totalBilled := (involvedClaims.map (fun c => c.billed_amount_inr)).sum
      let correctCost :=
        match dbLookup db bundle.correct_single_code with
        | some i => if i.avg_cost_inr = 0 then totalBilled * 0.6 else i.avg_cost_inr
        | none => totalBilled * 0.6
      some { involved_claims := involvedClaims.map (fun c => c.claim_id)
             involved_codes := involvedCodes
             involved_descriptions := involvedClaims.map (fun c => c.cpt_description)
             total_billed := totalBilled
             correct_code := bundle.correct_single_code
             correct_description := bundle.correct_description
             correct_cost := correctCost
             potential_savings := totalBilled - correctCost }
    else none)

/-- Result of the ghost & unbundling hunter. -/
structure GhostUnbundleResult : Type where
  ghost_services : List GhostService
  unbundling_alerts : List UnbundlingAlert
  total_potential_savings : ℚ
  flagged_count : ℕ
  risk_level : RiskLevel
deriving DecidableEq

/-- Run the ghost & unbundling hunter. -/
def runGhostUnbundleHunter (db : CPTDatabase) (claims : List ClaimItem) : GhostUnbundleResult :=
  let ghostServices := detectGhostServices db claims
  let unbundlingAlerts := detectUnbundling db claims
  let totalSavings := (ghostServices.map (fun g => g.billed_amount)).sum +
    (unbundlingAlerts.map (fun u => u.potential_savings)).sum
  { ghost_services := ghostServices
    unbundling_alerts := unbundlingAlerts
    total_potential_savings := totalSavings
    flagged_count := ghostServices.length + unbundlingAlerts.length
    risk_level := riskLadder (ghostServices.length + unbundlingAlerts.length) }

/-! Timeline Detective (`engine/timeline-detective.ts`)

Timestamps are integer milliseconds.  The behaviour of the JavaScript `Date`
constructor and of the process clock is abstracted into a `JsEnv`: a current
instant, the current date string, and a parsing function for the
date-time strings the code builds. -/

/-- Default procedure durations in minutes by CPT category. -/
def defaultDurations : List (String × ℕ) :=
  [("E&M", 30), ("Critical Care", 60), ("Radiology", 45), ("Surgery", 120),
   ("Physical Therapy", 30), ("Supplies", 10)]

/-- Ambient JavaScript date facilities: the current instant (ms), the current
date string, and the platform date-string parser. -/
structure JsEnv : Type where
  nowMs : ℤ
  todayStr : String
  parseDate : String → Option ℤ

/-- Parse date plus time, substituting the current date for a blank date,
12:00 for a blank time, and the current instant when parsing fails. -/
def parseDateTime (env : JsEnv) (date time : String) : ℤ :=
  let validDate := if nonBlank date then date else env.todayStr
  let validTime := if nonBlank time then time else "12:00"
  match env.parseDate (validDate ++ "T" ++ validTime ++ ":00") with
  | some t => t
  | none => env.nowMs

/-- A per-claim timeline event. -/
structure TimelineEvent : Type where
  claim_id : String
  start_time : ℤ
  end_time : ℤ
  department : String
  procedure : String
  location_lat : Option ℚ
  location_lng : Option ℚ
deriving DecidableEq

/-- Convert claims to timeline events; the duration comes from the category
table (the table has no zero entries, so the JavaScript falsy-default
coincides with the lookup default 30). -/
def claimsToEvents (env : JsEnv) (db : CPTDatabase) (claims : List ClaimItem) :
    List TimelineEvent :=
  claims.map (fun claim =>
    let category :=
      match dbLookup db claim.cpt_code with
      | some i => if i.category == "" then "E&M" else i.category
      | none => "E&M"
    let durationMinutes := (defaultDurations.lookup category).getD 30
    let startMs := parseDateTime env claim.date claim.time
    { claim_id := claim.claim_id
      start_time := startMs
      end_time := startMs + (durationMinutes : ℤ) * 60000
      department := claim.department
      procedure := claim.cpt_description
      location_lat := claim.location_lat
      location_lng := claim.location_lng })

/-- Overlap between two intervals in minutes (0 when they do not overlap). -/
def intervalsOverlapMin (startA endA startB endB : ℤ) : ℚ :=
  let overlapMs := min endA endB - max startA startB
  if 0 < overlapMs then (overlapMs : ℚ) / 60000 else 0

/-- JavaScript `Math.atan2`. -/
noncomputable def jsAtan2 (y x : ℝ) : ℝ :=
  if 0 < x then Real.arctan (y / x)
  else if x < 0 then
    (if 0 ≤ y then Real.arctan (y / x) + Real.pi else Real.arctan (y / x) - Real.pi)
  else if 0 < y then Real.pi / 2
  else if y < 0 then -(Real.pi / 2)
  else 0

/-- Haversine great-circle distance in km, Earth radius 6371 km. -/
noncomputable def haversineDistance (lat1 lng1 lat2 lng2 : ℚ) : ℝ :=
  let dLat : ℝ := ((lat2 : ℝ) - (lat1 : ℝ)) * Real.pi / 180
  let dLng : ℝ := ((lng2 : ℝ) - (lng1 : ℝ)) * Real.pi / 180
  let a : ℝ := Real.sin (dLat / 2) * Real.sin (dLat / 2) +
    Real.cos ((lat1 : ℝ) * Real.pi / 180) * Real.cos ((lat2 : ℝ) * Real.pi / 180) *
    Real.sin (dLng / 2) * Real.sin (dLng / 2)
  let c : ℝ := 2 * jsAtan2 (Real.sqrt a) (Real.sqrt (1 - a))
  6371 * c

/-- The required travel speed: a finite value or JavaScript Infinity. -/
inductive JsSpeed : Type where
  | val : ℝ → JsSpeed
  | inf : JsSpeed

/-- Kind of a timeline conflict. -/
inductive OverlapType : Type where
  | OVERLAP
  | TELEPORTATION
deriving DecidableEq

/-- One timeline-overlap finding; the free-text explanation is elided. -/
structure TimelineOverlap : Type where
  event_a : TimelineEvent
  event_b : TimelineEvent
  overlap_minutes : ℚ
  type : OverlapType
  required_speed_kmh : Option JsSpeed

/-- JavaScript truthiness of an optional coordinate: present and nonzero. -/
def truthyCoord : Option ℚ → Bool
  | none => false
  | some q => !(q == 0)

/-- The haversine distance between the recorded positions of two events. -/
noncomputable def pairDistance (a b : TimelineEvent) : ℝ :=
  haversineDistance (a.location_lat.getD 0) (a.location_lng.getD 0)
    (b.location_lat.getD 0) (b.location_lng.getD 0)

/-- Elapsed time between the two start times, in hours. -/
def pairHours (a b : TimelineEvent) : ℚ :=
  ((|b.start_time - a.start_time| : ℤ) : ℚ) / 3600000

/-- Required travel speed: distance over elapsed hours, Infinity when the
elapsed time is zero. -/
noncomputable def pairSpeed (a b : TimelineEvent) : JsSpeed :=
  if 0 < pairHours a b then .val (pairDistance a b / (pairHours a b : ℝ)) else .inf

/-- The body of the pairwise scan of `runTimelineDetective`: classify one pair
of events, returning a finding when their intervals overlap. -/
noncomputable def checkPair (a b : TimelineEvent) : Option TimelineOverlap :=
  let overlapMinutes := intervalsOverlapMin a.start_time a.end_time b.start_time b.end_time
  if 0 < overlapMinutes then
    if (a.department != b.department) && truthyCoord a.location_lat &&
        truthyCoord a.location_lng && truthyCoord b.location_lat &&
        truthyCoord b.location_lng then
      if 5 < pairDistance a b then
        some { event_a := a, event_b := b, overlap_minutes := overlapMinutes,
               type := .TELEPORTATION, required_speed_kmh := some (pairSpeed a b) }
      else
        some { event_a := a, event_b := b, overlap_minutes := overlapMinutes,
               type := .OVERLAP, required_speed_kmh := some (pairSpeed a b) }
    else
      some { event_a := a, event_b := b, overlap_minutes := overlapMinutes,
             type := .OVERLAP, required_speed_kmh := none }
  else none

/-- Unordered pairs in scan order (i < j). -/
def upairs {α : Type} : List α → List (α × α)
  | [] => []
  | x :: xs => xs.map (fun y => (x, y)) ++ upairs xs

/-- Result of the timeline detective. -/
structure TimelineResult : Type where
  events : List TimelineEvent
  overlaps : List TimelineOverlap
  flagged_count : ℕ
  risk_level : RiskLevel

/-- Run the timeline detective: pairwise scan, then the timeline risk ladder
(any teleportation CRITICAL, ≥3 overlaps HIGH, ≥1 MEDIUM, else LOW). -/
noncomputable def runTimelineDetective (env : JsEnv) (db : CPTDatabase)
    (claims : List ClaimItem) : TimelineResult :=
  let events := claimsToEvents env db claims
  let overlaps := (upairs events).filterMap (fun p => checkPair p.1 p.2)
  let riskLevel :=
    if overlaps.any (fun o => o.type == .TELEPORTATION) then RiskLevel.CRITICAL
    else if 3 ≤ overlaps.length then .HIGH
    else if 1 ≤ overlaps.length then .MEDIUM
    else .LOW
  { events := events
    overlaps := overlaps
    flagged_count := overlaps.length
    risk_level := riskLevel }

/-! XAI Advisor (`engine/xai-advisor.ts`) -/

/-- Direction of a risk factor. -/
inductive Direction : Type where
  | RISK
  | SAFE
deriving DecidableEq

/-- One named, signed risk factor; the description string is elided.  The
contribution is a JavaScript number: the phantom-charge and unbundling
factors divide by the batch total, which can produce non-finite values. -/
structure RiskFactor : Type where
  name : String
  contribution : JSVal
  direction : Direction
deriving DecidableEq

/-- The per-feature risk factors of the aggregator. -/
def calculateFactors (crossModal : CrossModalResult) (timeline : TimelineResult)
    (ghostUnbundle : GhostUnbundleResult) (claims : List ClaimItem) (db : CPTDatabase) :
    List RiskFactor :=
  let totalBilled : ℚ := (claims.map (fun c => c.billed_amount_inr)).sum
  let avgExpected : ℚ := (claims.map (fun c =>
    match dbLookup db c.cpt_code with
    | some i => i.avg_cost_inr
    | none => 0)).sum
  let f1 : List RiskFactor :=
    match crossModal.mismatches with
    | [] => [{ name := "Severity Match", contribution := .num (-0.08), direction := .SAFE }]
    | m :: rest =>
        let maxGap : ℤ := (rest.map (fun x => x.severity_gap)).foldl max m.severity_gap
        [{ name := "Severity Mismatch",
           contribution := .num (min ((maxGap : ℚ) * 0.12) 0.35), direction := .RISK }]
  let f2 : List RiskFactor :=
    if timeline.overlaps.isEmpty then
      [{ name := "Timeline Clean", contribution := .num (-0.05), direction := .SAFE }]
    else
      let hasTeleportation := timeline.overlaps.any (fun o => o.type == .TELEPORTATION)
      let contribution : ℚ :=
        if hasTeleportation then 0.30 else (timeline.overlaps.length : ℚ) * 0.10
      [{ name := if hasTeleportation then "Impossible Travel" else "Time Overlaps",
         contribution := .num (min contribution 0.35), direction := .RISK }]
  let f3 : List RiskFactor :=
    if ghostUnbundle.ghost_services.isEmpty then []
    else
      let ghostAmount : ℚ := (ghostUnbundle.ghost_services.map (fun g => g.billed_amount)).sum
      [{ name := "Phantom Charges",
         contribution := jmin
           (jadd (.num 0.10) (jmul (jdiv (.num ghostAmount) (.num totalBilled)) (.num 0.3)))
           (.num 0.30),
         direction := .RISK }]
  let f4 : List RiskFactor :=
    if ghostUnbundle.unbundling_alerts.isEmpty then []
    else
      [{ name := "Code Unbundling",
         contribution := jmin
           (jadd (.num 0.08)
             (jmul (jdiv (.num ghostUnbundle.total_potential_savings) (.num totalBilled))
               (.num 0.2)))
           (.num 0.25),
         direction := .RISK }]
  let f5 : List RiskFactor :=
    if 0 < avgExpected then
      let costRatio := totalBilled / avgExpected
      if 1.5 < costRatio then
        [{ name := "Excessive Billing",
           contribution := .num (min ((costRatio - 1) * 0.1) 0.20), direction := .RISK }]
      else
        [{ name := "Cost Normal", contribution := .num (-0.05), direction := .SAFE }]
    else []
  let missingDocs := (claims.filter (fun c =>
    substrOf "no record" (jsLower c.recorded_clinical_notes) ||
    decide (c.recorded_clinical_notes.length < 20))).length
  let f6 : List RiskFactor :=
    if 0 < missingDocs then
      [{ name := "Poor Documentation",
         contribution := .num ((missingDocs : ℚ) * 0.08), direction := .RISK }]
    else
      [{ name := "Documentation Complete", contribution := .num (-0.05), direction := .SAFE }]
  f1 ++ f2 ++ f3 ++ f4 ++ f5 ++ f6

/-- Sum of the RISK contributions. -/
def riskContributionOf (factors : List RiskFactor) : JSVal :=
  (factors.filter (fun f => f.direction == .RISK)).foldl
    (fun s f => jadd s f.contribution) (.num 0)

/-- Sum of the absolute SAFE contributions. -/
def safeContributionOf (factors : List RiskFactor) : JSVal :=
  (factors.filter (fun f => f.direction == .SAFE)).foldl
    (fun s f => jadd s (jabs f.contribution)) (.num 0)

/-- The raw score `10 + risk*100 - safe*15`. -/
def rawScoreOf (factors : List RiskFactor) : JSVal :=
  jsub (jadd (.num 10) (jmul (riskContributionOf factors) (.num 100)))
    (jmul (safeContributionOf factors) (.num 15))

/-- The aggregated risk score: `Math.round(Math.max(0, Math.min(100, raw)))`. -/
def computeRiskScore (factors : List RiskFactor) : JSVal :=
  jround (jmax (.num 0) (jmin (.num 100) (rawScoreOf factors)))

/-- Risk level and recommendation from the score (a NaN score fails every
comparison and lands on LOW/APPROVE, as in JavaScript). -/
def classifyScore (score : JSVal) : RiskLevel × Recommendation :=
  if jge score (.num 75) then (.CRITICAL, .REJECT)
  else if jge score (.num 50) then (.HIGH, .ESCALATE)
  else if jge score (.num 25) then (.MEDIUM, .REVIEW)
  else (.LOW, .APPROVE)

/-- Financial summary of the aggregator. -/
structure FinancialSummary : Type where
  billed_amount : ℚ
  expected_amount : ℚ
  potential_savings : ℚ
deriving DecidableEq

/-- Result of the XAI advisor; the narrative (deterministic template,
optionally overridden by the external generator) is pure output text and is
elided. -/
structure XAIResult : Type where
  risk_score : JSVal
  risk_level : RiskLevel
  factors : List RiskFactor
  recommendation : Recommendation
  financial_summary : FinancialSummary
deriving DecidableEq

/-- Run the XAI advisor on the combined engine results. -/
def runXAIAdvisor (crossModal : CrossModalResult) (timeline : TimelineResult)
    (ghostUnbundle : GhostUnbundleResult) (claims : List ClaimItem) (db : CPTDatabase) :
    XAIResult :=
  let totalBilled : ℚ := (claims.map (fun c => c.billed_amount_inr)).sum
  let factors := calculateFactors crossModal timeline ghostUnbundle claims db
  let riskScore := computeRiskScore factors
  let lc := classifyScore riskScore
  { risk_score := riskScore
    risk_level := lc.1
    factors := factors
    recommendation := lc.2
    financial_summary :=
      { billed_amount := totalBilled
        expected_amount := totalBilled - ghostUnbundle.total_potential_savings
        potential_savings := ghostUnbundle.total_potential_savings } }

/-! Orchestrator (`engine/analyzer.ts`) -/

/-- The combined result of one pipeline invocation; the analysis timestamp is
elided. -/
structure FullAnalysisResult : Type where
  patient_name : String
  total_claims : ℕ
  total_billed : ℚ
  cross_modal : CrossModalResult
  timeline : TimelineResult
  ghost_unbundle : GhostUnbundleResult
  xai : XAIResult
  claims : List ClaimItem

/-- Run the complete analysis pipeline on a batch. -/
noncomputable def analyzeFullClaim (env : JsEnv) (db : CPTDatabase)
    (claims : List ClaimItem) : FullAnalysisResult :=
  let crossModal := runCrossModalAudit db claims
  let timeline := runTimelineDetective env db claims
  let ghostUnbundle := runGhostUnbundleHunter db claims
  let xai := runXAIAdvisor crossModal timeline ghostUnbundle claims db
  { patient_name :=
      match claims with
      | [] => "Unknown"
      | c :: _ => if c.patient_name == "" then "Unknown" else c.patient_name
    total_claims := claims.length
    total_billed := (claims.map (fun c => c.billed_amount_inr)).sum
    cross_modal := crossModal
    timeline := timeline
    ghost_unbundle := ghostUnbundle
    xai := xai
    claims := claims }

/-! Spec-side definitions

These follow the wording of the specification (not the code) and are used
only to state refinement theorems against the embedded source. -/

/-- Spec wording for the aggregate score:
`clamp(0, 100, round(10 + 100*riskSum - 15*safeAbsSum))`. -/
def specRiskScore (riskSum safeAbsSum : ℚ) : ℤ :=
  max 0 (min 100 ⌊(10 + 100 * riskSum - 15 * safeAbsSum) + 1/2⌋)

/-- The rational carried by the RISK contributions of a finite factor list. -/
def riskSumQ (factors : List RiskFactor) : ℚ :=
  ((factors.filter (fun f => f.direction == .RISK)).map (fun f => f.contribution.toQ)).sum

/-- The sum of absolute SAFE contributions of a finite factor list. -/
def safeAbsSumQ (factors : List RiskFactor) : ℚ :=
  ((factors.filter (fun f => f.direction == .SAFE)).map (fun f => |f.contribution.toQ|)).sum

/-- Spec wording: a bundling rule fires when its primary code and at least one
listed bundled code both appear in the batch. -/
def specQualifies (claims : List ClaimItem) (r : BundlingRule) : Bool :=
  (claims.map (fun c => c.cpt_code)).contains r.primary_code &&
  !(r.bundled_codes.filter (fun c => (claims.map (fun x => x.cpt_code)).contains c)).isEmpty

/-- Spec wording for the alert a firing rule emits: the primary and every
present bundled code, the sum of the billed amounts of the involved claims, the
reference cost of the replacement code (60% fallback when that code is
unknown or carries a zero average cost), and savings = billed - cost. -/
def specAlertFor (db : CPTDatabase) (claims : List ClaimItem) (r : BundlingRule) :
    UnbundlingAlert :=
  let presentBundled := r.bundled_codes.filter (fun c =>
    (claims.map (fun x => x.cpt_code)).contains c)
  let involvedCodes := r.primary_code :: presentBundled
  let involvedClaims := claims.filter (fun c => involvedCodes.contains c.cpt_code)
  let totalBilled := (involvedClaims.map (fun c => c.billed_amount_inr)).sum
  let correctCost :=
    match dbLookup db r.correct_single_code with
    | some i => if i.avg_cost_inr = 0 then totalBilled * 0.6 else i.avg_cost_inr
    | none => totalBilled * 0.6
  { involved_claims := involvedClaims.map (fun c => c.claim_id)
    involved_codes := involvedCodes
    involved_descriptions := involvedClaims.map (fun c => c.cpt_description)
    total_billed := totalBilled
    correct_code := r.correct_single_code
    correct_description := r.correct_description
    correct_cost := correctCost
    potential_savings := totalBilled - correctCost }

/-- Spec wording: exactly one alert per firing rule, in rule order. -/
def specUnbundlingAlerts (db : CPTDatabase) (claims : List ClaimItem) :
    List UnbundlingAlert :=
  (db.ncci_bundles.filter (specQualifies claims)).map (specAlertFor db claims)

/-! Concrete fixtures used by witnesses and counterexamples -/

/-- An empty reference database. -/
def dbEmptyF : CPTDatabase :=
  { codes := [], ncci_bundles := [], severity_keywords := [] }

/-- A trivial date environment: epoch instant, blank date string, a parser
that never succeeds. -/
def envF : JsEnv :=
  { nowMs := 0, todayStr := "", parseDate := fun _ => none }

/-- A factor list with one RISK and one SAFE contribution. -/
def factorsW1 : List RiskFactor :=
  [{ name := "A", contribution := .num 0.3, direction := .RISK },
   { name := "B", contribution := .num (-0.05), direction := .SAFE }]

/-- A zero-billed claim whose notes deny the billed MRI: the input on which
the aggregator divides zero by zero. -/
def claimC6 : ClaimItem :=
  { claim_id := "CLM-1", patient_name := "A", date := "", time := "",
    department := "Radiology", cpt_code := "X1", cpt_description := "mri scan",
    billed_amount_inr := 0, recorded_clinical_notes := "no record found",
    location_lat := none, location_lng := none }

/-- A claim whose description maps to no semantic group while its notes carry
an explicit denial phrase. -/
def claimU4 : ClaimItem :=
  { claim_id := "CLM-2", patient_name := "A", date := "", time := "",
    department := "Radiology", cpt_code := "X9", cpt_description := "zzz",
    billed_amount_inr := 100, recorded_clinical_notes := "no record found",
    location_lat := none, location_lng := none }

/-- A claim billing an MRI whose notes carry an explicit denial phrase. -/
def claimW4 : ClaimItem :=
  { claim_id := "CLM-3", patient_name := "A", date := "", time := "",
    department := "Radiology", cpt_code := "70553", cpt_description := "mri scan",
    billed_amount_inr := 500, recorded_clinical_notes := "no record found",
    location_lat := none, location_lng := none }

/-- Reference entry for the C3 witness: a severity-5 code. -/
def infoW3 : CPTInfo :=
  { description := "em visit", severity := 5, avg_cost_inr := 1000, category := "E&M" }

/-- Database for the C3 witness. -/
def dbW3 : CPTDatabase :=
  { codes := [("99999", infoW3)], ncci_bundles := [],
    severity_keywords := [(1, ["stable"])] }

/-- Claim for the C3 witness: severity-5 code, routine note, no evidence. -/
def claimW3 : ClaimItem :=
  { claim_id := "CLM-4", patient_name := "A", date := "", time := "",
    department := "ER", cpt_code := "99999", cpt_description := "qqq www zzz",
    billed_amount_inr := 900, recorded_clinical_notes := "patient stable today",
    location_lat := none, location_lng := none }

/-- Timeline event at the north pole, department ER. -/
def evNorthER : TimelineEvent :=
  { claim_id := "A", start_time := 0, end_time := 1800000, department := "ER",
    procedure := "p1", location_lat := some 90, location_lng := some 10 }

/-- Timeline event at the south pole, same department ER. -/
def evSouthER : TimelineEvent :=
  { claim_id := "B", start_time := 0, end_time := 1800000, department := "ER",
    procedure := "p2", location_lat := some (-90), location_lng := some 10 }

/-- Timeline event at the south pole, department Radiology. -/
def evSouthRad : TimelineEvent :=
  { claim_id := "C", start_time := 0, end_time := 1800000, department := "Radiology",
    procedure := "p3", location_lat := some (-90), location_lng := some 10 }

/-- Timeline event with latitude zero (falsy coordinate), department ER. -/
def evZeroLat : TimelineEvent :=
  { claim_id := "D", start_time := 0, end_time := 1800000, department := "ER",
    procedure := "p4", location_lat := some 0, location_lng := some 50 }

/-- Timeline event with ordinary coordinates, department Radiology. -/
def evFarRad : TimelineEvent :=
  { claim_id := "E", start_time := 0, end_time := 1800000, department := "Radiology",
    procedure := "p5", location_lat := some 40, location_lng := some 60 }

/-- Reference entry whose average cost is zero (JavaScript-falsy). -/
def infoR1 : CPTInfo :=
  { description := "combined closed treatment", severity := 2, avg_cost_inr := 0,
    category := "Surgery" }

/-- Database for the C5 counterexample: the replacement code of the bundle is known
but carries a zero average cost. -/
def dbC5 : CPTDatabase :=
  { codes := [("R1", infoR1)],
    ncci_bundles := [{ primary_code := "P1", bundled_codes := ["B1"],
                       correct_single_code := "R1", correct_description := "rd" }],
    severity_keywords := [] }

/-- Batch billing the primary and the bundled code of the C5 counterexample. -/
def claimsC5 : List ClaimItem :=
  [{ claim_id := "CLM-5", patient_name := "A", date := "", time := "",
     department := "Ortho", cpt_code := "P1", cpt_description := "primary",
     billed_amount_inr := 70, recorded_clinical_notes := "",
     location_lat := none, location_lng := none },
   { claim_id := "CLM-6", patient_name := "A", date := "", time := "",
     department := "Ortho", cpt_code := "B1", cpt_description := "bundled",
     billed_amount_inr := 30, recorded_clinical_notes := "",
     location_lat := none, location_lng := none }]

/-- Reference entry for the unbundling example given in the spec, replacement code
with a nonzero cost. -/
def infoRW5 : CPTInfo :=
  { description := "closed treatment with manipulation", severity := 3,
    avg_cost_inr := 5000, category := "Surgery" }

/-- Database for the C5 witness: the example rule 23650 + [29240] from the spec. -/
def dbW5 : CPTDatabase :=
  { codes := [("23651", infoRW5)],
    ncci_bundles := [{ primary_code := "23650", bundled_codes := ["29240"],
                       correct_single_code := "23651", correct_description := "combined" }],
    severity_keywords := [] }

/-- Batch billing both codes of the example bundle from the spec. -/
def claimsW5 : List ClaimItem :=
  [{ claim_id := "CLM-7", patient_name := "A", date := "", time := "",
     department := "Ortho", cpt_code := "23650", cpt_description := "closed treatment",
     billed_amount_inr := 4000, recorded_clinical_notes := "",
     location_lat := none, location_lng := none },
   { claim_id := "CLM-8", patient_name := "A", date := "", time := "",
     department := "Ortho", cpt_code := "29240", cpt_description := "strapping",
     billed_amount_inr := 2500, recorded_clinical_notes := "",
     location_lat := none, location_lng := none }]

/-! Helper lemmas on JavaScript-number arithmetic -/

theorem jadd_num (a b : ℚ) : jadd (.num a) (.num b) = .num (a + b) := rfl

theorem jsub_num (a b : ℚ) : jsub (.num a) (.num b) = .num (a - b) := by
  simp [jsub, jadd, jneg, sub_eq_add_neg]

theorem jmul_num (a b : ℚ) : jmul (.num a) (.num b) = .num (a * b) := rfl

theorem jmin_num (a b : ℚ) : jmin (.num a) (.num b) = .num (min a b) := rfl

theorem jmax_num (a b : ℚ) : jmax (.num a) (.num b) = .num (max a b) := rfl

theorem jabs_num (a : ℚ) : jabs (.num a) = .num |a| := rfl

theorem jround_num (a : ℚ) : jround (.num a) = .num ((⌊a + 1/2⌋ : ℤ) : ℚ) := rfl

theorem JSVal.isFinite_iff {v : JSVal} : v.isFinite = true ↔ ∃ q : ℚ, v = .num q := by
  cases v <;> simp [JSVal.isFinite]

theorem foldl_jadd_nums (l : List JSVal) (h : ∀ v ∈ l, v.isFinite = true) (init : ℚ) :
    l.foldl jadd (.num init) = .num (init + (l.map JSVal.toQ).sum) := by
  induction l generalizing init with
  | nil => simp
  | cons v t ih =>
      obtain ⟨q, rfl⟩ := JSVal.isFinite_iff.mp (h v (List.mem_cons_self v t))
      have ht : ∀ w ∈ t, w.isFinite = true := fun w hw => h w (List.mem_cons_of_mem _ hw)
      simp only [List.foldl_cons, jadd_num, ih ht, List.map_cons, List.sum_cons, JSVal.toQ]
      ring_nf

theorem riskContributionOf_num (factors : List RiskFactor)
    (h : ∀ f ∈ factors, f.contribution.isFinite = true) :
    riskContributionOf factors = .num (riskSumQ factors) := by
  unfold riskContributionOf riskSumQ
  rw [← List.foldl_map, foldl_jadd_nums, zero_add, List.map_map]
  · rfl
  · intro v hv
    obtain ⟨f, hf, rfl⟩ := List.mem_map.mp hv
    exact h f (List.mem_filter.mp hf).1

theorem safeContributionOf_num (factors : List RiskFactor)
    (h : ∀ f ∈ factors, f.contribution.isFinite = true) :
    safeContributionOf factors = .num (safeAbsSumQ factors) := by
  unfold safeContributionOf safeAbsSumQ
  rw [← List.foldl_map, foldl_jadd_nums, zero_add, List.map_map]
  · refine congrArg JSVal.num (congrArg List.sum (List.map_congr_left (fun f hf => ?_)))
    obtain ⟨q, hq⟩ := JSVal.isFinite_iff.mp (h f (List.mem_filter.mp hf).1)
    simp [Function.comp, hq, jabs_num, JSVal.toQ]
  · intro v hv
    obtain ⟨f, hf, rfl⟩ := List.mem_map.mp hv
    obtain ⟨q, hq⟩ := JSVal.isFinite_iff.mp (h f (List.mem_filter.mp hf).1)
    simp [hq, jabs_num, JSVal.isFinite]

theorem floor_clamp_comm (x : ℚ) :
    (⌊max 0 (min 100 x) + 1/2⌋ : ℤ) = max 0 (min 100 ⌊x + 1/2⌋) := by
  rcases le_total x 0 with h0 | h0
  · have hmin : min (100 : ℚ) x = x := min_eq_right (by linarith)
    have hmax : max (0 : ℚ) x = 0 := max_eq_left h0
    have hr : (⌊x + 1/2⌋ : ℤ) ≤ 0 := by
      calc (⌊x + 1/2⌋ : ℤ) ≤ ⌊(0 : ℚ) + 1/2⌋ := Int.floor_le_floor (by linarith)
        _ = 0 := by norm_num
    have hminr : min (100 : ℤ) ⌊x + 1/2⌋ = ⌊x + 1/2⌋ := min_eq_right (by omega)
    have hmaxr : max (0 : ℤ) ⌊x + 1/2⌋ = 0 := max_eq_left hr
    rw [hmin, hmax, hminr, hmaxr]
    norm_num
  · rcases le_total 100 x with h1 | h1
    · have hmin : min (100 : ℚ) x = 100 := min_eq_left h1
      have hmax : max (0 : ℚ) (100 : ℚ) = 100 := max_eq_right (by norm_num)
      have hr : (100 : ℤ) ≤ ⌊x + 1/2⌋ := by
        calc (100 : ℤ) = ⌊(100 : ℚ) + 1/2⌋ := by norm_num
          _ ≤ ⌊x + 1/2⌋ := Int.floor_le_floor (by linarith)
      have hminr : min (100 : ℤ) ⌊x + 1/2⌋ = 100 := min_eq_left hr
      have hmaxr : max (0 : ℤ) (100 : ℤ) = 100 := max_eq_right (by omega)
      rw [hmin, hmax, hminr, hmaxr]
      norm_num
    · have hmin : min (100 : ℚ) x = x := min_eq_right h1
      have hmax : max (0 : ℚ) x = x := max_eq_right h0
      have hr0 : (0 : ℤ) ≤ ⌊x + 1/2⌋ := Int.floor_nonneg.mpr (by linarith)
      have hr1 : (⌊x + 1/2⌋ : ℤ) ≤ 100 := by
        calc (⌊x + 1/2⌋ : ℤ) ≤ ⌊(100 : ℚ) + 1/2⌋ := Int.floor_le_floor (by linarith)
          _ = 100 := by norm_num
      have hminr : min (100 : ℤ) ⌊x + 1/2⌋ = ⌊x + 1/2⌋ := min_eq_right hr1
      have hmaxr : max (0 : ℤ) ⌊x + 1/2⌋ = ⌊x + 1/2⌋ := max_eq_right hr0
      rw [hmin, hmax, hminr, hmaxr]

theorem computeRiskScore_num (factors : List RiskFactor)
    (h : ∀ f ∈ factors, f.contribution.isFinite = true) :
    computeRiskScore factors =
      .num ((specRiskScore (riskSumQ factors) (safeAbsSumQ factors) : ℤ) : ℚ) := by
  unfold computeRiskScore rawScoreOf specRiskScore
  rw [riskContributionOf_num factors h, safeContributionOf_num factors h,
    jmul_num, jadd_num, jmul_num, jsub_num, jmin_num, jmax_num, jround_num]
  congr 1
  rw [show (10 + riskSumQ factors * 100 - safeAbsSumQ factors * 15 : ℚ) =
      10 + 100 * riskSumQ factors - 15 * safeAbsSumQ factors by ring]
  exact_mod_cast floor_clamp_comm (10 + 100 * riskSumQ factors - 15 * safeAbsSumQ factors)

theorem classifyScore_int (s : ℤ) :
    classifyScore (.num (s : ℚ)) =
      (if 75 ≤ s then (RiskLevel.CRITICAL, Recommendation.REJECT)
       else if 50 ≤ s then (.HIGH, .ESCALATE)
       else if 25 ≤ s then (.MEDIUM, .REVIEW)
       else (.LOW, .APPROVE)) := by
  have h75 : jge (.num (s : ℚ)) (.num 75) = decide (75 ≤ s) := by
    simp [jge]
    norm_cast
  have h50 : jge (.num (s : ℚ)) (.num 50) = decide (50 ≤ s) := by
    simp [jge]
    norm_cast
  have h25 : jge (.num (s : ℚ)) (.num 25) = decide (25 ≤ s) := by
    simp [jge]
    norm_cast
  simp [classifyScore, h75, h50, h25]

/-- C1.  For finite factor contributions (the factors the aggregator builds,
outside the NaN edge recorded at C6), the risk score computed by
`runXAIAdvisor` equals the spec formula
clamp(0, 100, round(10 + 100*sum(RISK) - 15*sum(abs SAFE))), and the risk
level and recommendation follow the fixed thresholds
75/CRITICAL/REJECT, 50/HIGH/ESCALATE, 25/MEDIUM/REVIEW, else LOW/APPROVE. -/
theorem c1_risk_score_and_thresholds (factors : List RiskFactor)
    (h : ∀ f ∈ factors, f.contribution.isFinite = true) :
    computeRiskScore factors =
      .num ((specRiskScore (riskSumQ factors) (safeAbsSumQ factors) : ℤ) : ℚ) ∧
    classifyScore (computeRiskScore factors) =
      (if 75 ≤ specRiskScore (riskSumQ factors) (safeAbsSumQ factors) then
         (RiskLevel.CRITICAL, Recommendation.REJECT)
       else if 50 ≤ specRiskScore (riskSumQ factors) (safeAbsSumQ factors) then
         (.HIGH, .ESCALATE)
       else if 25 ≤ specRiskScore (riskSumQ factors) (safeAbsSumQ factors) then
         (.MEDIUM, .REVIEW)
       else (.LOW, .APPROVE)) := by
  refine ⟨computeRiskScore_num factors h, ?_⟩
  rw [computeRiskScore_num factors h]
  exact classifyScore_int _

/-- Witness for C1 at a concrete factor list. -/
theorem c1_witness :
    (∀ f ∈ factorsW1, f.contribution.isFinite = true) ∧
    computeRiskScore factorsW1 =
      .num ((specRiskScore (riskSumQ factorsW1) (safeAbsSumQ factorsW1) : ℤ) : ℚ) ∧
    classifyScore (computeRiskScore factorsW1) =
      (if 75 ≤ specRiskScore (riskSumQ factorsW1) (safeAbsSumQ factorsW1) then
         (RiskLevel.CRITICAL, Recommendation.REJECT)
       else if 50 ≤ specRiskScore (riskSumQ factorsW1) (safeAbsSumQ factorsW1) then
         (.HIGH, .ESCALATE)
       else if 25 ≤ specRiskScore (riskSumQ factorsW1) (safeAbsSumQ factorsW1) then
         (.MEDIUM, .REVIEW)
       else (.LOW, .APPROVE)) := by
  have hfin : ∀ f ∈ factorsW1, f.contribution.isFinite = true := by decide
  exact ⟨hfin, (c1_risk_score_and_thresholds factorsW1 hfin).1,
    (c1_risk_score_and_thresholds factorsW1 hfin).2⟩

theorem specRiskScore_mono {rs rs2 ss : ℚ} (h : rs ≤ rs2) :
    specRiskScore rs ss ≤ specRiskScore rs2 ss := by
  unfold specRiskScore
  exact max_le_max le_rfl (min_le_min le_rfl (Int.floor_le_floor (by linarith)))

theorem specRiskScore_le_100 (rs ss : ℚ) : specRiskScore rs ss ≤ 100 := by
  unfold specRiskScore
  exact max_le (by norm_num) (min_le_left _ _)

theorem riskSumQ_append (l1 l2 : List RiskFactor) :
    riskSumQ (l1 ++ l2) = riskSumQ l1 + riskSumQ l2 := by
  simp [riskSumQ, List.filter_append]

theorem safeAbsSumQ_append (l1 l2 : List RiskFactor) :
    safeAbsSumQ (l1 ++ l2) = safeAbsSumQ l1 + safeAbsSumQ l2 := by
  simp [safeAbsSumQ, List.filter_append]

theorem riskSumQ_cons_risk (nm : String) (v : JSVal) (l : List RiskFactor) :
    riskSumQ ({ name := nm, contribution := v, direction := .RISK } :: l) =
      v.toQ + riskSumQ l := by
  simp [riskSumQ, List.filter_cons]

theorem safeAbsSumQ_cons_risk (nm : String) (v : JSVal) (l : List RiskFactor) :
    safeAbsSumQ ({ name := nm, contribution := v, direction := .RISK } :: l) =
      safeAbsSumQ l := by
  simp [safeAbsSumQ, List.filter_cons]

/-- C7.  Holding the other factors fixed, the aggregated risk score is
monotonically non-decreasing in the RISK factors: inserting an additional
RISK factor with nonnegative contribution never decreases the score, and
increasing an existing RISK contribution never decreases the score; the
score stays bounded by 100. -/
theorem c7_risk_monotone (pre post : List RiskFactor) (nm nm2 : String) (c c2 : ℚ)
    (hfin : ∀ f ∈ pre ++ post, f.contribution.isFinite = true) :
    (0 ≤ c → ∃ n n2 : ℤ,
      computeRiskScore (pre ++ post) = .num (n : ℚ) ∧
      computeRiskScore
        (pre ++ { name := nm, contribution := .num c, direction := .RISK } :: post) =
        .num (n2 : ℚ) ∧
      n ≤ n2 ∧ n2 ≤ 100) ∧
    (c ≤ c2 → ∃ n n2 : ℤ,
      computeRiskScore
        (pre ++ { name := nm, contribution := .num c, direction := .RISK } :: post) =
        .num (n : ℚ) ∧
      computeRiskScore
        (pre ++ { name := nm2, contribution := .num c2, direction := .RISK } :: post) =
        .num (n2 : ℚ) ∧
      n ≤ n2 ∧ n2 ≤ 100) := by
  have hpre : ∀ f ∈ pre, f.contribution.isFinite = true :=
    fun f hf => hfin f (List.mem_append_left _ hf)
  have hpost : ∀ f ∈ post, f.contribution.isFinite = true :=
    fun f hf => hfin f (List.mem_append_right _ hf)
  have hins : ∀ (nm3 : String) (v : ℚ),
      ∀ f ∈ pre ++ { name := nm3, contribution := .num v, direction := .RISK } :: post,
        f.contribution.isFinite = true := by
    intro nm3 v f hf
    rcases List.mem_append.mp hf with hf | hf
    · exact hpre f hf
    · rcases List.mem_cons.mp hf with rfl | hf
      · rfl
      · exact hpost f hf
  have hsum : ∀ (nm3 : String) (v : ℚ),
      riskSumQ (pre ++ { name := nm3, contribution := .num v, direction := .RISK } :: post) =
        riskSumQ pre + (v + riskSumQ post) := by
    intro nm3 v
    rw [riskSumQ_append, riskSumQ_cons_risk]
    rfl
  have hsafe : ∀ (nm3 : String) (v : ℚ),
      safeAbsSumQ (pre ++ { name := nm3, contribution := .num v, direction := .RISK } :: post) =
        safeAbsSumQ (pre ++ post) := by
    intro nm3 v
    rw [safeAbsSumQ_append, safeAbsSumQ_cons_risk, safeAbsSumQ_append]
  constructor
  · intro hc
    refine ⟨specRiskScore (riskSumQ (pre ++ post)) (safeAbsSumQ (pre ++ post)), _,
      computeRiskScore_num _ hfin, computeRiskScore_num _ (hins nm c), ?_, ?_⟩
    · rw [hsum, hsafe]
      refine specRiskScore_mono ?_
      rw [riskSumQ_append]
      linarith
    · exact specRiskScore_le_100 _ _
  · intro hc
    refine ⟨_, _, computeRiskScore_num _ (hins nm c), computeRiskScore_num _ (hins nm2 c2),
      ?_, ?_⟩
    · rw [hsum, hsum, hsafe, hsafe]
      refine specRiskScore_mono ?_
      linarith
    · exact specRiskScore_le_100 _ _

/-- Witness for C7 with an empty context, adding RISK 0.1 and raising it
to 0.2. -/
theorem c7_witness :
    (∃ n n2 : ℤ,
      computeRiskScore (([] : List RiskFactor) ++ []) = .num (n : ℚ) ∧
      computeRiskScore
        (([] : List RiskFactor) ++
          { name := "X", contribution := .num (1/10), direction := .RISK } :: []) =
        .num (n2 : ℚ) ∧
      n ≤ n2 ∧ n2 ≤ 100) ∧
    (∃ n n2 : ℤ,
      computeRiskScore
        (([] : List RiskFactor) ++
          { name := "X", contribution := .num (1/10), direction := .RISK } :: []) =
        .num (n : ℚ) ∧
      computeRiskScore
        (([] : List RiskFactor) ++
          { name := "Y", contribution := .num (1/5), direction := .RISK } :: []) =
        .num (n2 : ℚ) ∧
      n ≤ n2 ∧ n2 ≤ 100) := by
  have hfin : ∀ f ∈ (([] : List RiskFactor) ++ []), f.contribution.isFinite = true := by
    simp
  exact ⟨(c7_risk_monotone [] [] "X" "Y" (1/10) (1/5) hfin).1 (by norm_num),
    (c7_risk_monotone [] [] "X" "Y" (1/10) (1/5) hfin).2 (by norm_num)⟩

theorem filterMap_ite {α β : Type} (p : α → Bool) (f : α → β) (l : List α) :
    (l.filterMap (fun a => if p a then some (f a) else none)) = (l.filter p).map f := by
  induction l with
  | nil => rfl
  | cons x xs ih => cases hp : p x <;> simp [List.filterMap_cons, List.filter_cons, hp, ih]

/-- Counterexample to C5 as stated: the replacement code R1 of the bundle is
known to the reference database with average cost 0, yet the correct cost in
the emitted alert is the 60% fallback (60), not the cost of the database
entry (0). -/
theorem c5_counterexample :
    dbLookup dbC5 "R1" = some infoR1 ∧
    infoR1.avg_cost_inr = 0 ∧
    (detectUnbundling dbC5 claimsC5).map
      (fun a => (a.total_billed, a.correct_cost, a.potential_savings)) = [(100, 60, 40)] ∧
    (60 : ℚ) ≠ infoR1.avg_cost_inr := by
  refine ⟨rfl, rfl, by with_unfolding_all decide, by norm_num [infoR1]⟩

/-- C5 (amended).  For every bundling rule whose primary code and at least one
listed bundled code appear in the batch, exactly one alert is emitted (one per
firing rule, in rule order), covering the primary and every present bundled
code, with total billed the sum of the amounts of the involved claims, the correct
cost from the reference entry of the replacement code when that entry has a
nonzero average cost — falling back to 60% of the total billed when the
replacement code is unknown or its average cost is zero — and savings equal
to total billed minus correct cost. -/
theorem c5_unbundling_amended (db : CPTDatabase) (claims : List ClaimItem) :
    detectUnbundling db claims = specUnbundlingAlerts db claims := by
  unfold detectUnbundling specUnbundlingAlerts
  exact filterMap_ite (specQualifies claims) (specAlertFor db claims) db.ncci_bundles

/-- C6 (code bug).  On a batch with a ghost finding and zero total billed the
aggregator divides zero by zero: the phantom-charge contribution and with it
the final risk score are NaN, not a number in [0, 100].  The conjuncts record
the failing configuration: one ghost service, total billed 0. -/
theorem c6_nan_risk_score :
    (analyzeFullClaim envF dbEmptyF [claimC6]).xai.risk_score = JSVal.nan ∧
    JSVal.nan.isFinite = false ∧
    (detectGhostServices dbEmptyF [claimC6]).length = 1 ∧
    ([claimC6].map (fun c => c.billed_amount_inr)).sum = 0 := by
  refine ⟨by with_unfolding_all rfl, rfl, by with_unfolding_all rfl,
    by with_unfolding_all rfl⟩

/-- C8.  The engine pipeline does not fail on the empty batch: it reports zero
claims, zero billed, risk level LOW and recommendation APPROVE, for every
date environment and reference database. -/
theorem c8_empty_batch (env : JsEnv) (db : CPTDatabase) :
    (analyzeFullClaim env db []).total_claims = 0 ∧
    (analyzeFullClaim env db []).total_billed = 0 ∧
    (analyzeFullClaim env db []).xai.risk_level = RiskLevel.LOW ∧
    (analyzeFullClaim env db []).xai.recommendation = Recommendation.APPROVE := by
  have hu : detectUnbundling db [] = [] := by
    unfold detectUnbundling
    rw [List.filterMap_eq_nil_iff]
    intro b _
    simp
  have hfull : (analyzeFullClaim env db []).xai.risk_level = RiskLevel.LOW ∧
      (analyzeFullClaim env db []).xai.recommendation = Recommendation.APPROVE := by
    unfold analyzeFullClaim runGhostUnbundleHunter
    rw [hu]
    constructor
    · with_unfolding_all rfl
    · with_unfolding_all rfl
  exact ⟨rfl, rfl, hfull.1, hfull.2⟩

/-- Counterexample to C4 as stated: the notes of the claim carry the explicit
denial phrase, yet because the description maps to no known semantic group
the similarity ratio is the 0.5 default, not 0, and the claim is not flagged
as a ghost service at all. -/
theorem c4_counterexample :
    substrOf "no record found" (jsLower claimU4.recorded_clinical_notes) = true ∧
    denialPhrase (jsLower claimU4.recorded_clinical_notes) = true ∧
    getRelevantGroups claimU4.cpt_description = [] ∧
    calculateSimilarity claimU4.cpt_description claimU4.recorded_clinical_notes = 1/2 ∧
    (1/2 : ℚ) ≠ 0 ∧
    detectGhostServices dbEmptyF [claimU4] = [] := by
  refine ⟨rfl, rfl, rfl, by with_unfolding_all decide, by norm_num,
    by with_unfolding_all decide⟩

/-- C4 (amended).  For every claim in a batch with non-empty clinical notes
containing an explicit denial phrase, provided the procedure maps to at least
one known semantic group, the similarity ratio is 0 regardless of keyword
matches, the claim is flagged as a ghost service (0 < 0.15), and its
explanation is the phantom-billing variant, not the insufficient-evidence
variant. -/
theorem c4_denial_amended (db : CPTDatabase) (claims : List ClaimItem) (i : ℕ)
    (claim : ClaimItem)
    (hget : claims[i]? = some claim)
    (hnotes : nonBlank claim.recorded_clinical_notes = true)
    (hgroups : getRelevantGroups claim.cpt_description ≠ [])
    (hden : denialPhrase (jsLower claim.recorded_clinical_notes) = true) :
    calculateSimilarity claim.cpt_description claim.recorded_clinical_notes = 0 ∧
    ∃ g ∈ detectGhostServices db claims,
      g.claim_id = claim.claim_id ∧ g.similarity_score = 0 ∧
      g.wording = GhostWording.phantomBilling := by
  have hsim : calculateSimilarity claim.cpt_description claim.recorded_clinical_notes = 0 := by
    cases hl : getRelevantGroups claim.cpt_description with
    | nil => exact absurd hl hgroups
    | cons a t => simp [calculateSimilarity, hl, hden]
  have hga : ghostPathA claim =
      some { claim_id := claim.claim_id, cpt_code := claim.cpt_code,
             cpt_description := claim.cpt_description,
             billed_amount := claim.billed_amount_inr,
             similarity_score := 0, wording := .phantomBilling } := by
    unfold ghostPathA
    rw [hsim]
    norm_num
  refine ⟨hsim, ?_⟩
  have hmem : (i, claim) ∈ claims.enum := by
    rw [List.mk_mem_enum_iff_getElem?]
    exact hget
  unfold detectGhostServices
  refine ⟨{ claim_id := claim.claim_id, cpt_code := claim.cpt_code,
            cpt_description := claim.cpt_description,
            billed_amount := claim.billed_amount_inr,
            similarity_score := 0, wording := .phantomBilling },
    List.mem_flatMap.mpr ⟨(i, claim), hmem, ?_⟩, rfl, rfl, rfl⟩
  simp [hnotes, hga]

/-- Witness for C4 (amended) at a concrete denial claim billing an MRI. -/
theorem c4_witness :
    calculateSimilarity claimW4.cpt_description claimW4.recorded_clinical_notes = 0 ∧
    ∃ g ∈ detectGhostServices dbEmptyF [claimW4],
      g.claim_id = claimW4.claim_id ∧ g.similarity_score = 0 ∧
      g.wording = GhostWording.phantomBilling :=
  c4_denial_amended dbEmptyF [claimW4] 0 claimW4 rfl (by with_unfolding_all decide)
    (by decide) (by decide)

theorem haversine_poles : haversineDistance 90 10 (-90) 10 = 6371 * Real.pi := by
  have e1 : (((-90 : ℚ) : ℝ) - ((90 : ℚ) : ℝ)) * Real.pi / 180 / 2 = -(Real.pi / 2) := by
    push_cast
    ring
  have e2 : ((90 : ℚ) : ℝ) * Real.pi / 180 = Real.pi / 2 := by
    push_cast
    ring
  have e3 : ((-90 : ℚ) : ℝ) * Real.pi / 180 = -(Real.pi / 2) := by
    push_cast
    ring
  have e4 : (((10 : ℚ) : ℝ) - ((10 : ℚ) : ℝ)) * Real.pi / 180 / 2 = 0 := by
    push_cast
    ring
  simp only [haversineDistance]
  rw [e1, e2, e3, e4, Real.sin_neg, Real.sin_pi_div_two, Real.cos_pi_div_two, Real.cos_neg,
    Real.sin_zero]
  norm_num [jsAtan2, Real.sqrt_one, Real.sqrt_zero]
  ring

theorem haversine_poles_gt5 : (5 : ℝ) < haversineDistance 90 10 (-90) 10 := by
  rw [haversine_poles]
  nlinarith [Real.pi_gt_three]

/-- Counterexample to C2 as stated: two overlapping claims at the two poles
(more than 5 km apart by haversine) billed by the same department are
classified OVERLAP, not TELEPORTATION, and no required speed is computed. -/
theorem c2_counterexample :
    (5 : ℝ) < haversineDistance 90 10 (-90) 10 ∧
    evNorthER.location_lat = some 90 ∧ evSouthER.location_lat = some (-90) ∧
    0 < intervalsOverlapMin evNorthER.start_time evNorthER.end_time
      evSouthER.start_time evSouthER.end_time ∧
    checkPair evNorthER evSouthER =
      some { event_a := evNorthER, event_b := evSouthER, overlap_minutes := 30,
             type := .OVERLAP, required_speed_kmh := none } := by
  have hov : intervalsOverlapMin evNorthER.start_time evNorthER.end_time
      evSouthER.start_time evSouthER.end_time = 30 := by
    with_unfolding_all decide
  have hovpos : 0 < intervalsOverlapMin evNorthER.start_time evNorthER.end_time
      evSouthER.start_time evSouthER.end_time := by
    rw [hov]
    norm_num
  have hc : (evNorthER.department != evSouthER.department &&
      truthyCoord evNorthER.location_lat && truthyCoord evNorthER.location_lng &&
      truthyCoord evSouthER.location_lat && truthyCoord evSouthER.location_lng) = false := by
    decide
  refine ⟨haversine_poles_gt5, rfl, rfl, hovpos, ?_⟩
  simp only [checkPair, hovpos, if_true, hc, Bool.false_eq_true, if_false, hov]
  norm_num

/-- C2 (amended).  For every overlapping pair of events from different
departments with present, nonzero coordinates on both sides: if the haversine
distance exceeds 5 km the pair is classified TELEPORTATION with required
speed equal to distance divided by the elapsed hours between the start times
(Infinity when the elapsed time is zero); if the distance is at most 5 km the
pair is classified OVERLAP, never TELEPORTATION. -/
theorem c2_teleportation_amended (a b : TimelineEvent)
    (hover : 0 < intervalsOverlapMin a.start_time a.end_time b.start_time b.end_time)
    (hdep : (a.department != b.department) = true)
    (h1 : truthyCoord a.location_lat = true) (h2 : truthyCoord a.location_lng = true)
    (h3 : truthyCoord b.location_lat = true) (h4 : truthyCoord b.location_lng = true) :
    (5 < pairDistance a b →
      checkPair a b =
        some { event_a := a, event_b := b,
               overlap_minutes :=
                 intervalsOverlapMin a.start_time a.end_time b.start_time b.end_time,
               type := .TELEPORTATION, required_speed_kmh := some (pairSpeed a b) } ∧
      pairSpeed a b = (if 0 < pairHours a b then
        .val (pairDistance a b / ((pairHours a b : ℚ) : ℝ)) else .inf)) ∧
    (pairDistance a b ≤ 5 →
      checkPair a b =
        some { event_a := a, event_b := b,
               overlap_minutes :=
                 intervalsOverlapMin a.start_time a.end_time b.start_time b.end_time,
               type := .OVERLAP, required_speed_kmh := some (pairSpeed a b) }) := by
  have hc : (a.department != b.department && truthyCoord a.location_lat &&
      truthyCoord a.location_lng && truthyCoord b.location_lat &&
      truthyCoord b.location_lng) = true := by
    simp [hdep, h1, h2, h3, h4]
  constructor
  · intro h5
    refine ⟨?_, rfl⟩
    simp only [checkPair, hover, if_true, hc, if_pos h5]
  · intro h5
    simp only [checkPair, hover, if_true, hc, if_neg (not_lt.mpr h5)]

/-- Witness for C2 (amended): pole-to-pole events from different departments,
equal start times, hence TELEPORTATION with infinite required speed. -/
theorem c2_witness :
    checkPair evNorthER evSouthRad =
      some { event_a := evNorthER, event_b := evSouthRad, overlap_minutes := 30,
             type := .TELEPORTATION, required_speed_kmh := some .inf } := by
  have hd5 : (5 : ℝ) < pairDistance evNorthER evSouthRad := haversine_poles_gt5
  have h := (c2_teleportation_amended evNorthER evSouthRad
    (by with_unfolding_all decide) (by decide) (by decide) (by decide) (by decide)
    (by decide)).1 hd5
  have hov : intervalsOverlapMin evNorthER.start_time evNorthER.end_time
      evSouthRad.start_time evSouthRad.end_time = 30 := by
    with_unfolding_all decide
  have hhours : pairHours evNorthER evSouthRad = 0 := by
    with_unfolding_all decide
  have hsp : pairSpeed evNorthER evSouthRad = .inf := by
    unfold pairSpeed
    rw [hhours]
    norm_num
  rw [h.1, hov, hsp]

/-- C10.  For every overlapping pair of events from different departments in
which some coordinate is absent or zero (JavaScript-falsy), no distance or
required speed is computed and the pair is classified OVERLAP, never
TELEPORTATION, whatever the recorded positions. -/
theorem c10_falsy_coordinates (a b : TimelineEvent)
    (hover : 0 < intervalsOverlapMin a.start_time a.end_time b.start_time b.end_time)
    (hdep : (a.department != b.department) = true)
    (hfalsy : a.location_lat = none ∨ a.location_lat = some 0 ∨
      a.location_lng = none ∨ a.location_lng = some 0 ∨
      b.location_lat = none ∨ b.location_lat = some 0 ∨
      b.location_lng = none ∨ b.location_lng = some 0) :
    checkPair a b =
      some { event_a := a, event_b := b,
             overlap_minutes :=
               intervalsOverlapMin a.start_time a.end_time b.start_time b.end_time,
             type := .OVERLAP, required_speed_kmh := none } := by
  have hc : (a.department != b.department && truthyCoord a.location_lat &&
      truthyCoord a.location_lng && truthyCoord b.location_lat &&
      truthyCoord b.location_lng) = false := by
    rcases hfalsy with h | h | h | h | h | h | h | h <;> simp [h, truthyCoord]
  simp only [checkPair, hover, if_true, hc, Bool.false_eq_true, if_false]

/-- Witness for C10: a zero-latitude event against a far-away event from a
different department is flagged as a plain OVERLAP with no required speed. -/
theorem c10_witness :
    checkPair evZeroLat evFarRad =
      some { event_a := evZeroLat, event_b := evFarRad, overlap_minutes := 30,
             type := .OVERLAP, required_speed_kmh := none } := by
  have h := c10_falsy_coordinates evZeroLat evFarRad (by with_unfolding_all decide)
    (by decide) (Or.inr (Or.inl rfl))
  have hov : intervalsOverlapMin evZeroLat.start_time evZeroLat.end_time
      evFarRad.start_time evFarRad.end_time = 30 := by
    with_unfolding_all decide
  rw [h, hov]

/-- C3.  For a claim with non-empty clinical notes and a known procedure code,
the severity cross-checker flags a mismatch exactly when (a) the service has
no evidence in the notes and its billed severity is at least 2, or (b) billed
severity minus note severity is at least 3, or (c) that gap is at least 2
while evidence is absent; and whenever the claim is flagged without evidence
the recorded effective note severity is min(matched level, 1). -/
theorem c3_mismatch_flag_conditions (db : CPTDatabase) (claim : ClaimItem) (info : CPTInfo)
    (hlk : dbLookup db claim.cpt_code = some info)
    (hnotes : nonBlank claim.recorded_clinical_notes = true) :
    ((runCrossModalAudit db [claim]).mismatches ≠ [] ↔
      ((checkServiceEvidence claim.cpt_code claim.cpt_description
          claim.recorded_clinical_notes = false ∧ 2 ≤ info.severity) ∨
       3 ≤ (info.severity : ℤ) -
         ((extractNoteSeverity claim.recorded_clinical_notes db.severity_keywords).1 : ℤ) ∨
       (2 ≤ (info.severity : ℤ) -
          ((extractNoteSeverity claim.recorded_clinical_notes db.severity_keywords).1 : ℤ) ∧
        checkServiceEvidence claim.cpt_code claim.cpt_description
          claim.recorded_clinical_notes = false))) ∧
    (checkServiceEvidence claim.cpt_code claim.cpt_description
        claim.recorded_clinical_notes = false →
      ∀ m ∈ (runCrossModalAudit db [claim]).mismatches,
        m.note_severity =
          min (extractNoteSeverity claim.recorded_clinical_notes db.severity_keywords).1 1) := by
  have hm : (runCrossModalAudit db [claim]).mismatches =
      (auditClaimA db.severity_keywords info claim).toList := by
    simp [runCrossModalAudit, hlk, hnotes]
  rw [hm]
  cases hev : checkServiceEvidence claim.cpt_code claim.cpt_description
      claim.recorded_clinical_notes with
  | true =>
      cases hflag : shouldFlagA db.severity_keywords info claim with
      | true =>
          have hflag2 := hflag
          simp only [shouldFlagA, auditGap, hev, Bool.not_true, Bool.false_and,
            Bool.and_false, Bool.false_or, Bool.or_false, Bool.or_eq_true,
            decide_eq_true_eq] at hflag2
          constructor
          · simp only [auditClaimA, hflag, if_true, Option.toList_some, ne_eq,
              reduceCtorEq, not_false_eq_true, true_iff]
            exact Or.inr (Or.inl hflag2)
          · intro hevf
            simp at hevf
      | false =>
          have hflag2 := hflag
          simp only [shouldFlagA, auditGap, hev, Bool.not_true, Bool.false_and,
            Bool.and_false, Bool.false_or, Bool.or_false,
            decide_eq_false_iff_not] at hflag2
          constructor
          · simp only [auditClaimA, hflag, Bool.false_eq_true, if_false,
              Option.toList_none, ne_eq, not_true_eq_false, false_iff]
            intro hcon
            rcases hcon with ⟨h1, _⟩ | h | ⟨_, h1⟩
            · simp [hev] at h1
            · exact hflag2 h
            · simp [hev] at h1
          · intro _ m hm2
            simp [auditClaimA, hflag] at hm2
  | false =>
      cases hflag : shouldFlagA db.severity_keywords info claim with
      | true =>
          have hflag2 := hflag
          simp only [shouldFlagA, auditGap, hev, Bool.not_false, Bool.true_and,
            Bool.and_true, Bool.or_eq_true, decide_eq_true_eq] at hflag2
          constructor
          · simp only [auditClaimA, hflag, if_true, Option.toList_some, ne_eq,
              reduceCtorEq, not_false_eq_true, true_iff]
            rcases hflag2 with (h | h) | h
            · exact Or.inl ⟨by trivial, h⟩
            · exact Or.inr (Or.inl h)
            · exact Or.inr (Or.inr ⟨h, by trivial⟩)
          · intro _ m hm2
            simp only [auditClaimA, hflag, if_true, hev, Bool.false_eq_true, if_false,
              Option.toList_some, List.mem_singleton] at hm2
            subst hm2
            simp
      | false =>
          have hflag2 := hflag
          simp only [shouldFlagA, auditGap, hev, Bool.not_false, Bool.true_and,
            Bool.and_true, Bool.or_eq_false_iff, decide_eq_false_iff_not] at hflag2
          constructor
          · simp only [auditClaimA, hflag, Bool.false_eq_true, if_false,
              Option.toList_none, ne_eq, not_true_eq_false, false_iff]
            intro hcon
            rcases hcon with ⟨_, h1⟩ | h | ⟨h1, _⟩
            · exact hflag2.1.1 h1
            · exact hflag2.1.2 h
            · exact hflag2.2 h1
          · intro _ m hm2
            simp [auditClaimA, hflag] at hm2

/-- Witness for C3: a severity-5 code with a routine note and no service
evidence is flagged, and its effective note severity is capped at 1. -/
theorem c3_witness :
    (runCrossModalAudit dbW3 [claimW3]).mismatches ≠ [] ∧
    ∀ m ∈ (runCrossModalAudit dbW3 [claimW3]).mismatches, m.note_severity = 1 := by
  have h := c3_mismatch_flag_conditions dbW3 claimW3 infoW3 (by with_unfolding_all rfl)
    (by with_unfolding_all decide)
  have hev : checkServiceEvidence claimW3.cpt_code claimW3.cpt_description
      claimW3.recorded_clinical_notes = false := by
    with_unfolding_all decide
  refine ⟨h.1.mpr (Or.inl ⟨hev, by norm_num [infoW3]⟩), ?_⟩
  intro m hm
  have hcap := h.2 hev m hm
  rw [hcap]
  with_unfolding_all decide

/-- C9.  Timeline construction never rejects a claim: every claim yields an
event, a blank date is replaced by the current date, a blank time by 12:00,
and when the assembled date-time string fails to parse the start falls back
to the current instant. -/
theorem c9_datetime_defaults (env : JsEnv) (db : CPTDatabase) (claims : List ClaimItem)
    (date time : String) :
    (claimsToEvents env db claims).length = claims.length ∧
    (date.trim = "" → parseDateTime env date time = parseDateTime env env.todayStr time) ∧
    (time.trim = "" → parseDateTime env date time = parseDateTime env date "12:00") ∧
    (env.parseDate ((if nonBlank date then date else env.todayStr) ++ "T" ++
        (if nonBlank time then time else "12:00") ++ ":00") = none →
      parseDateTime env date time = env.nowMs) := by
  refine ⟨by simp [claimsToEvents], ?_, ?_, ?_⟩
  · intro hd
    have hnb : nonBlank date = false := by simp [nonBlank, strTruthy, hd]
    cases hT : nonBlank env.todayStr <;>
      simp [parseDateTime, hnb, hT]
  · intro ht
    have hnb : nonBlank time = false := by simp [nonBlank, strTruthy, ht]
    have h12 : nonBlank "12:00" = true := by with_unfolding_all decide
    simp [parseDateTime, hnb, h12]
  · intro hp
    simp only [parseDateTime]
    rw [hp]

/-- Witness for C9 at a concrete environment: a blank date is replaced by the
current date string, a whitespace time by noon, and an unparseable string by
the current instant. -/
theorem c9_witness :
    (claimsToEvents envF dbEmptyF []).length = 0 ∧
    parseDateTime envF "" "09:30" = parseDateTime envF envF.todayStr "09:30" ∧
    parseDateTime envF "2024-01-01" "  " = parseDateTime envF "2024-01-01" "12:00" ∧
    parseDateTime envF "" "" = envF.nowMs := by
  refine ⟨(c9_datetime_defaults envF dbEmptyF [] "" "09:30").1, ?_, ?_, ?_⟩
  · exact (c9_datetime_defaults envF dbEmptyF [] "" "09:30").2.1
      (by with_unfolding_all decide)
  · exact (c9_datetime_defaults envF dbEmptyF [] "2024-01-01" "  ").2.2.1
      (by with_unfolding_all decide)
  · exact (c9_datetime_defaults envF dbEmptyF [] "" "").2.2.2 rfl


end TrueClaim
